import Mathlib

set_option linter.unusedVariables false

/-! Shallow embedding of the raptor-engine module
`src/packages/raptor-engine/src/framework/html-element.ts`: the runtime
value layer, the view-model record, the watcher registry and the accessor
surface (`createPublicPropertyDescriptor`, `createWiredPropertyDescriptor`,
`getAttribute`, `querySelector`, `querySelectorAll`, `state`, `classList`,
`root`, and the disabled global-HTML-attribute accessors).

The module's collaborators (`reactive.ts`, `watcher.ts`, `assert.ts`,
`vm.ts`, `piercing.ts`, `utils.ts`, `dom.ts`) are not part of the sources
under verification; the definitions standing in for them are marked
"Modelled from the spec".  Ambient reporting channels (`assert.logError`,
`assert.logWarning`, `console.log`, `console.error`) are modelled as lists
of messages inside the engine state, and `assert.fail` / a thrown
`TypeError` / `ReferenceError` as an `Except.error` result, following the
spec's error taxonomy (reported errors are swallowed after logging, hard
failures propagate). -/

/-- Runtime values flowing through the property reflection layer.  A plain
object (`obj`) carries an identity, its fields, a flag recording whether it
is the reactive membrane over the raw object, and the non-reactive marker;
an array (`arr`) carries an identity and the membrane flag. -/
inductive Value where
  | undef : Value
  | prim : Nat → Value
  | obj : Nat → List (String × Value) → Bool → Bool → Value
  | arr : Nat → Bool → Value

/-- Identity of a structured value (0 for non-structured values, which never
reach the stores). -/
def valueId : Value → Nat
  | .obj i _ _ _ => i
  | .arr i _ => i
  | _ => 0

/-- Fields of a plain-object value. -/
def valueFields : Value → List (String × Value)
  | .obj _ f _ _ => f
  | _ => []

/-- Modelled from the spec: the sequence test used by the wired and state
setters (`isArray` from `language.ts`, not under src; it re-exports the
standard `Array.isArray`). -/
def isArray : Value → Bool
  | .arr _ _ => true
  | _ => false

/-- Modelled from the spec: the structured-value test (`isObject` from
`language.ts`, not under src; `typeof o === "object"`). -/
def isObject : Value → Bool
  | .obj _ _ _ _ => true
  | .arr _ _ => true
  | _ => false

/-- Modelled from the spec: eligibility test for the observable wrapper — a
non-null structured record or sequence that does not carry the non-reactive
marker (`isObservable` from `reactive.ts`, not under src). -/
def isObservable : Value → Bool
  | .obj _ _ _ marked => !marked
  | .arr _ _ => true
  | _ => false

/-- Modelled from the spec: idempotent promotion of an eligible value to its
observable wrapper; wrapping an already-wrapped value yields the same
wrapper, and a non-eligible value is returned unchanged (`getReactiveProxy`
from `reactive.ts`, not under src). -/
def getReactiveProxy : Value → Value
  | .obj i f _ m => .obj i f true m
  | .arr i _ => .arr i true
  | v => v

/-- Association-list lookup used for the backing stores (`cmpProps`,
`cmpWired`, `cmpState` are plain string-keyed records in the source). -/
def lookupField : List (String × Value) → String → Option Value
  | [], _ => none
  | (k', v') :: rest, k => if k' = k then some v' else lookupField rest k

/-- Association-list update for the backing stores: overwrite the first
binding of the key, or append a fresh binding. -/
def setField : List (String × Value) → String → Value → List (String × Value)
  | [], k, v => [(k, v)]
  | (k', v') :: rest, k, v =>
      if k' = k then (k, v) :: rest else (k', v') :: setField rest k v

/-- A node of the host element's subtree, as seen by the query APIs.  The
`passedIn` bit records whether the composer handed the node in (the
information `wasNodePassedIntoVM` consults), `matchesSelectors` the
selectors the node matches for the native query, and `pierced` whether the
piercing membrane has wrapped it. -/
structure DomNode where
  nodeId : Nat
  passedIn : Bool
  matchesSelectors : List String
  pierced : Bool
deriving Repr, DecidableEq

/-- Ambient engine state: the global rendering flag and currently rendered
view-model (`isRendering` / `vmBeingRendered` from `invoker.ts`), the
watcher registry, the dirty and rehydration-scheduling sets, the reporting
channels, and a fresh-identity counter for lazily created objects. -/
structure Engine where
  isRendering : Bool
  vmBeingRendered : Nat
  subs : List ((Nat × String) × Nat)
  dirty : List Nat
  scheduled : List Nat
  consoleLog : List String
  consoleErrors : List String
  errors : List String
  warnings : List String
  nextId : Nat
deriving Repr, DecidableEq

/-- Per-instance view-model record: lifecycle phase, the backing stores of
the three property classes (with the identities the watcher keys on), the
lazily created `classList` and `root` objects, the compiled metadata
(`def.props`, `vnode.data.attrs`, `vnode.sel`) and the host element's
subtree. -/
structure VM where
  vmId : Nat
  sel : String
  constructing : Bool
  cmpProps : List (String × Value)
  cmpPropsId : Nat
  cmpWired : Option (Nat × List (String × Value))
  cmpState : Option (Nat × List (String × Value))
  cmpClasses : Option (List String)
  classListObj : Option Nat
  cmpRoot : Option Nat
  publicProps : List String
  attrs : List (String × String)
  elmNodes : List DomNode

/-- Embeds `isBeingConstructed` from `component.ts` (not under src): the
view-model's construction-phase flag. -/
def isBeingConstructed (vm : VM) : Bool :=
  vm.constructing

/-- The component constructor returning control to the framework: the
constructing → idle transition of the lifecycle state machine. -/
def leaveConstruction (vm : VM) : VM :=
  { vm with constructing := false }

/-- Stringification of a view-model, following `toString` of
`ComponentElement.prototype` (it prints the vnode selector). -/
def vmToString (vm : VM) : String :=
  "<" ++ vm.sel ++ ">"

/-- Crude stringification of a runtime value, used only inside diagnostic
messages. -/
def valueToString : Value → String
  | .undef => "undefined"
  | .prim n => toString n
  | .obj _ _ _ _ => "[object Object]"
  | .arr _ _ => "[object Array]"

/-- Subscribers currently registered for one (store identity, key) pair of
the watcher registry. -/
def subscribersOf (subs : List ((Nat × String) × Nat)) (storeId : Nat)
    (key : String) : List Nat :=
  (subs.filter (fun s => s.1 = (storeId, key))).map (fun s => s.2)

/-- Modelled from the spec: `subscribeToSetHook` from `watcher.ts` (not
under src) — record the given view-model as a subscriber of the (store,
key) pair unless it is already subscribed. -/
def subscribeToSetHook (vmId : Nat) (storeId : Nat) (key : String)
    (e : Engine) : Engine :=
  if ((storeId, key), vmId) ∈ e.subs then e
  else { e with subs := e.subs ++ [((storeId, key), vmId)] }

/-- Modelled from the spec: the per-subscriber step of notification — an
already-dirty view-model is not scheduled again, otherwise it is marked
dirty and scheduled for rehydration (`markComponentAsDirty` plus
`scheduleRehydration` from `vm.ts`, not under src). -/
def scheduleRehydration (acc : Engine) (vmId : Nat) : Engine :=
  if vmId ∈ acc.dirty then acc
  else { acc with dirty := acc.dirty ++ [vmId],
                  scheduled := acc.scheduled ++ [vmId] }

/-- Modelled from the spec: `notifyListeners` from `watcher.ts` (not under
src) — walk a snapshot of the subscribers of the (store, key) pair and
schedule each one for rehydration, deduplicating by the dirty flag. -/
def notifyListeners (storeId : Nat) (key : String) (e : Engine) : Engine :=
  (subscribersOf e.subs storeId key).foldl scheduleRehydration e

/-- Diagnostic message reported by the observable wrapper when a write is
attempted during the rendering phase. -/
def renderPhaseWriteMsg (key : String) : String :=
  "Setting property \"" ++ key ++
    "\" during the rendering process is invalid. The render phase must have no side effects on the state of any component."

/-- Modelled from the spec: the observable wrapper's write path (the `set`
trap of the reactive membrane in `reactive.ts`, not under src).  While the
global rendering flag is set the write is rejected and reported as an
error; otherwise the underlying mutation is applied and the watcher is
notified for the written key. -/
def reactiveSet (storeId : Nat) (fields : List (String × Value))
    (key : String) (v : Value) (e : Engine) :
    List (String × Value) × Engine :=
  if e.isRendering then
    (fields, { e with errors := e.errors ++ [renderPhaseWriteMsg key] })
  else
    (setField fields key v, notifyListeners storeId key e)

/-- Modelled from the spec: the observable wrapper's read path (the `get`
trap of the reactive membrane in `reactive.ts`, not under src).  Reading
during an active render subscribes the currently rendered view-model to the
key; an eligible stored value is wrapped on demand before being returned. -/
def reactiveGet (storeId : Nat) (fields : List (String × Value))
    (key : String) (e : Engine) : Value × Engine :=
  let raw := (lookupField fields key).getD Value.undef
  let v := if isObservable raw then getReactiveProxy raw else raw
  let e' := if e.isRendering then
    subscribeToSetHook e.vmBeingRendered storeId key e
  else e
  (v, e')

/-- Field read through the observable wrapper of a stored object: the raw
field value, wrapped on demand when it is itself eligible (the lazy deep
wrapping of the spec). -/
def readField (v : Value) (k : String) : Value :=
  let raw := (lookupField (valueFields v) k).getD Value.undef
  if isObservable raw then getReactiveProxy raw else raw

/-- Error reported by the public-property getter when read during
construction (`createPublicPropertyDescriptor.getter`). -/
def publicGetterConstructionMsg (vm : VM) (propName : String) : String :=
  vmToString vm ++ " constructor should not read the value of property \"" ++
    propName ++
    "\". The owner component has not yet set the value. Instead use the constructor to set default values for properties."

/-- Error reported by the public-property setter when written outside
construction (`createPublicPropertyDescriptor.setter`). -/
def publicSetterPhaseMsg (vm : VM) (propName : String) : String :=
  vmToString vm ++ " can only set a new value for property \"" ++ propName ++
    "\" during construction."

/-- Dev-mode warning of the public-property setter when a non-reactive
object is assigned. -/
def nonReactiveAssignMsg (vm : VM) (propName : String) (v : Value) : String :=
  "Assigning a non-reactive value " ++ valueToString v ++
    " to member property " ++ propName ++ " of " ++ vmToString vm ++
    " is not common because mutations on that value cannot be observed."

/-- Embeds the getter produced by `createPublicPropertyDescriptor`
(html-element.ts lines 26-44): during construction it reports a usage error
and returns undefined; an author-defined original getter replaces default
storage; otherwise the stored value is returned, with a render-time
subscription of the currently rendered view-model to (cmpProps, propName)
when the global rendering flag is set. -/
def publicPropertyGetter (origGetter : Option (VM → Value))
    (propName : String) (vm : VM) (e : Engine) : Value × Engine :=
  if isBeingConstructed vm then
    (Value.undef,
     { e with errors := e.errors ++ [publicGetterConstructionMsg vm propName] })
  else
    match origGetter with
    | some g => (g vm, e)
    | none =>
      let e' := if e.isRendering then
        subscribeToSetHook e.vmBeingRendered vm.cmpPropsId propName e
      else e
      ((lookupField vm.cmpProps propName).getD Value.undef, e')

/-- Embeds the setter produced by `createPublicPropertyDescriptor`
(html-element.ts lines 48-70): outside construction the write is rejected
with a reported error; an author-defined original setter replaces default
storage; otherwise the value is stored in `cmpProps`, wrapped by
`getReactiveProxy` when it is observable, after a dev-mode warning for
non-reactive objects. -/
def publicPropertySetter (origSetter : Option (VM → Value → VM))
    (propName : String) (v : Value) (vm : VM) (e : Engine) : VM × Engine :=
  if !isBeingConstructed vm then
    (vm, { e with errors := e.errors ++ [publicSetterPhaseMsg vm propName] })
  else
    match origSetter with
    | some s => (s vm v, e)
    | none =>
      let observable := isObservable v
      let e' := if !observable && isObject v then
        { e with warnings := e.warnings ++ [nonReactiveAssignMsg vm propName v] }
      else e
      let stored := if observable then getReactiveProxy v else v
      ({ vm with cmpProps := setField vm.cmpProps propName stored }, e')

/-- Lazy creation of the wired backing store on first access
(`vm.cmpWired = getReactiveProxy(create(null))`): returns the store's
identity and fields, the possibly updated view-model and engine. -/
def ensureCmpWired (vm : VM) (e : Engine) :
    Nat × List (String × Value) × VM × Engine :=
  match vm.cmpWired with
  | some (wid, fields) => (wid, fields, vm, e)
  | none =>
      (e.nextId, [], { vm with cmpWired := some (e.nextId, []) },
       { e with nextId := e.nextId + 1 })

/-- Embeds the getter produced by `createWiredPropertyDescriptor`
(html-element.ts lines 85-100): the wired store is lazily created, the value
is read through the observable wrapper, and when the global rendering flag
is set the currently rendered view-model is additionally subscribed to
(cmpWired, propName). -/
def wiredPropertyGetter (propName : String) (vm : VM) (e : Engine) :
    Value × VM × Engine :=
  let (wid, fields, vm', e') := ensureCmpWired vm e
  let (v, e'') := reactiveGet wid fields propName e'
  let e''' := if e''.isRendering then
    subscribeToSetHook e''.vmBeingRendered wid propName e''
  else e''
  (v, vm', e''')

/-- Hard-failure message of the wired-property setter
(`createWiredPropertyDescriptor.setter`, `assert.fail`). -/
def wiredSetterFailMsg (vm : VM) (propName : String) : String :=
  vmToString vm ++ " failed to set new value into property \"" ++ propName ++
    "\". It can only be set to an observable object."

/-- Embeds the setter produced by `createWiredPropertyDescriptor`
(html-element.ts lines 102-117): an array or non-observable value raises a
hard failure (`assert.fail`) and the write is not applied; otherwise the
wired store is lazily created, the wrapped value is written through the
observable wrapper, and `notifyListeners` is explicitly triggered for the
key. -/
def wiredPropertySetter (propName : String) (v : Value) (vm : VM)
    (e : Engine) : Except String (VM × Engine) :=
  let observable := isObservable v
  if isArray v || !observable then
    Except.error (wiredSetterFailMsg vm propName)
  else
    let (wid, fields, vm', e') := ensureCmpWired vm e
    let (fields', e'') :=
      reactiveSet wid fields propName
        (if observable then getReactiveProxy v else v) e'
    Except.ok ({ vm' with cmpWired := some (wid, fields') },
               notifyListeners wid propName e'')

/-- Embeds `ComponentElement.prototype.get state` (html-element.ts lines
290-298): the internal state store is lazily created as an observable
wrapper over an empty record on first read and cached on the view-model. -/
def stateGetter (vm : VM) (e : Engine) :
    (Nat × List (String × Value)) × VM × Engine :=
  match vm.cmpState with
  | some st => (st, vm, e)
  | none =>
      ((e.nextId, []), { vm with cmpState := some (e.nextId, []) },
       { e with nextId := e.nextId + 1 })

/-- Hard-failure message of the state setter (`ComponentElement.prototype
.set state`, `assert.fail`). -/
def stateSetterFailMsg (vm : VM) (v : Value) : String :=
  vmToString vm ++ " failed to set new state to " ++ valueToString v ++
    ". this.state can only be set to an observable object."

/-- Embeds `ComponentElement.prototype.set state` (html-element.ts lines
299-307): an array or non-observable value raises a hard failure
(`assert.fail`) and the write is not applied; otherwise `cmpState` is
replaced wholesale with the observable wrapper over the assigned object.
Note the source performs no rendering-phase check on this path. -/
def stateSetter (v : Value) (vm : VM) (e : Engine) :
    Except String (VM × Engine) :=
  if isArray v || !isObservable v then
    Except.error (stateSetterFailMsg vm v)
  else
    let w := getReactiveProxy v
    Except.ok ({ vm with cmpState := some (valueId w, valueFields w) }, e)

/-- Embeds `ComponentElement.prototype.get classList` (html-element.ts lines
267-278): on first access `vm.cmpClasses` is initialised and a fresh
`ClassList` object is created and cached; later reads return the cached
object. -/
def classListGetter (vm : VM) (e : Engine) : Nat × VM × Engine :=
  match vm.classListObj with
  | some c => (c, vm, e)
  | none =>
      (e.nextId,
       { vm with cmpClasses := some [], classListObj := some e.nextId },
       { e with nextId := e.nextId + 1 })

/-- Embeds `ComponentElement.prototype.get root` (html-element.ts lines
279-289): on first access a fresh `Root` object is created and cached;
later reads return the cached object. -/
def rootGetter (vm : VM) (e : Engine) : Nat × VM × Engine :=
  match vm.cmpRoot with
  | some r => (r, vm, e)
  | none =>
      (e.nextId, { vm with cmpRoot := some e.nextId },
       { e with nextId := e.nextId + 1 })

/-- Modelled from the spec: `wasNodePassedIntoVM` from `vm.ts` (not under
src) — whether the node was supplied by the component's composer, as
opposed to content declared in the component's own template. -/
def wasNodePassedIntoVM (vm : VM) (n : DomNode) : Bool :=
  n.passedIn

/-- Modelled from the spec: the piercing membrane step from `piercing.ts`
(not under src) — wrap a returned node so that further traversal respects
the boundary. -/
def pierce (vm : VM) (n : DomNode) : DomNode :=
  { n with pierced := true }

/-- The native subtree query of the host element
(`elm.querySelectorAll(selectors)`, an external DOM collaborator): every
node of the subtree matching the selector, in tree order. -/
def nativeQuerySelectorAll (vm : VM) (selectors : String) : List DomNode :=
  vm.elmNodes.filter (fun n => selectors ∈ n.matchesSelectors)

/-- Modelled from the spec: the shadow-root-scoped query used only by the
dev-mode advisory of the query APIs (`shadowRootQuerySelectorAll` from
`root.ts`, not under src) — it sees the nodes the component's own template
owns, i.e. the ones not passed in by the composer. -/
def shadowRootQueryModel (vm : VM) (selectors : String) : List DomNode :=
  (nativeQuerySelectorAll vm selectors).filter (fun n => !n.passedIn)

/-- Hard-failure message when `querySelector` is called during
construction (`assert.isFalse`). -/
def querySelectorConstructionMsg (vm : VM) : String :=
  "this.querySelector() cannot be called during the construction of the custom element for " ++
    vmToString vm ++ " because no children has been added to this element yet."

/-- Dev-mode advisory of `querySelector` when only template-owned nodes
match. -/
def querySelectorSlotMsg (vm : VM) : String :=
  "this.querySelector() can only return elements that were passed into " ++
    vmToString vm ++
    " via slots. It seems that you are looking for elements from your template declaration, in which case you should use this.root.querySelector() instead."

/-- Embeds `ComponentElement.prototype.querySelector` (html-element.ts lines
215-232): calling it during construction is a hard failure; otherwise the
native subtree query runs and the first node that was passed into the
view-model is returned through the piercing membrane; when none was passed
in, the dev-mode block reads `this.root` (lazily creating it), possibly
logs an advisory, and null is returned. -/
def querySelector (selectors : String) (vm : VM) (e : Engine) :
    Except String (Option DomNode × VM × Engine) :=
  if isBeingConstructed vm then
    Except.error (querySelectorConstructionMsg vm)
  else
    let nodeList := nativeQuerySelectorAll vm selectors
    match nodeList.find? (fun n => wasNodePassedIntoVM vm n) with
    | some n => Except.ok (some (pierce vm n), vm, e)
    | none =>
        let (r, vm', e') := rootGetter vm e
        let e'' := if (shadowRootQueryModel vm' selectors).isEmpty then e'
          else { e' with warnings := e'.warnings ++ [querySelectorSlotMsg vm'] }
        Except.ok (none, vm', e'')

/-- Hard-failure message when `querySelectorAll` is called during
construction (`assert.isFalse`). -/
def querySelectorAllConstructionMsg (vm : VM) : String :=
  "this.querySelectorAll() cannot be called during the construction of the custom element for " ++
    vmToString vm ++ " because no children has been added to this element yet."

/-- Dev-mode advisory of `querySelectorAll` when only template-owned nodes
match. -/
def querySelectorAllSlotMsg (vm : VM) : String :=
  "this.querySelectorAll() can only return elements that were passed into " ++
    vmToString vm ++
    " via slots. It seems that you are looking for elements from your template declaration, in which case you should use this.root.querySelectorAll() instead."

/-- Embeds `ComponentElement.prototype.querySelectorAll` (html-element.ts
lines 233-245): calling it during construction is a hard failure; otherwise
the native subtree query result is filtered to the nodes that were passed
into the view-model and returned through the piercing membrane; when the
filter comes back empty the dev-mode block reads `this.root` (lazily
creating it) and possibly logs an advisory. -/
def querySelectorAll (selectors : String) (vm : VM) (e : Engine) :
    Except String (List DomNode × VM × Engine) :=
  if isBeingConstructed vm then
    Except.error (querySelectorAllConstructionMsg vm)
  else
    let nodeList := nativeQuerySelectorAll vm selectors
    let filteredNodes := nodeList.filter (fun n => wasNodePassedIntoVM vm n)
    if filteredNodes.isEmpty then
      let (r, vm', e') := rootGetter vm e
      let e'' := if (shadowRootQueryModel vm' selectors).isEmpty then e'
        else { e' with warnings := e'.warnings ++ [querySelectorAllSlotMsg vm'] }
      Except.ok (filteredNodes.map (pierce vm'), vm', e'')
    else
      Except.ok (filteredNodes.map (pierce vm), vm, e)

/-- Modelled from the spec: dash-to-camelCase attribute-to-property name
mapping (`getPropNameFromAttrName` from `utils.ts`, not under src). -/
def camelizeChars : List Char → List Char
  | [] => []
  | '-' :: c :: rest => c.toUpper :: camelizeChars rest
  | '-' :: rest => camelizeChars rest
  | c :: rest => c :: camelizeChars rest

/-- Modelled from the spec: maps a global attribute name to the
corresponding property name (`getPropNameFromAttrName` from `utils.ts`, not
under src). -/
def getPropNameFromAttrName (attrName : String) : String :=
  String.mk (camelizeChars attrName.data)

/-- Modelled from the spec: normalization of a raw compiler attribute value
into an HTML attribute value (`toAttributeValue` from `utils.ts`, not under
src); a missing raw value normalizes to null. -/
def toAttributeValue : Option String → Option String
  | none => none
  | some s => some s

/-- Metadata record of one global HTML property, as destructured by the
source (`{ error, attribute, readOnly, experimental }` from the
`GlobalHTMLProperties` table of `dom.ts`). -/
structure GlobalPropMeta where
  attributeName : Option String
  readOnly : Bool
  experimental : Bool
  error : Option String
deriving Repr, DecidableEq

/-- Modelled from the spec: a sample of the global HTML attribute metadata
table (`GlobalHTMLProperties` from `dom.ts`, not under src — pure static
data mapping property name to attribute name, read-only and experimental
flags and an optional error text). -/
def GlobalHTMLProperties : List (String × GlobalPropMeta) :=
  [("id", { attributeName := some "id", readOnly := false,
            experimental := false, error := none }),
   ("dir", { attributeName := some "dir", readOnly := false,
             experimental := false, error := none }),
   ("dropzone", { attributeName := some "dropzone", readOnly := false,
                  experimental := true, error := none }),
   ("isContentEditable", { attributeName := none, readOnly := true,
                           experimental := false, error := none }),
   ("slot", { attributeName := some "slot", readOnly := false,
              experimental := false,
              error := some "Using the slot property is an anti-pattern." })]

/-- Keys of `ComponentElement.prototype` (html-element.ts lines 138-315):
the names already exposed on the component surface, for which the
disabled-global-accessor loop does not redefine anything. -/
def ComponentElementPrototypeNames : List String :=
  ["renderedCallback", "render", "connectedCallback", "disconnectedCallback",
   "dispatchEvent", "addEventListener", "removeEventListener", "getAttribute",
   "getBoundingClientRect", "querySelector", "querySelectorAll", "tagName",
   "tabIndex", "classList", "root", "state", "toString"]

/-- Hard-failure message of `getAttribute` called with zero arguments (a
thrown TypeError). -/
def getAttributeMissingArgMsg (vm : VM) : String :=
  "Failed to execute getAttribute on " ++ vmToString vm ++
    ": 1 argument is required, got 0."

/-- Hard-failure message of `getAttribute` called with an attribute name
shadowing a declared public property (a thrown ReferenceError in the
dev-mode block). -/
def getAttributeShadowMsg (attrName propName : String) (vm : VM) : String :=
  "Attribute \"" ++ attrName ++ "\" corresponds to public property " ++
    propName ++ " from " ++ vmToString vm ++ ". Instead use this." ++
    propName ++ ". Only use getAttribute() to access global HTML attributes."

/-- Dev-mode console message of `getAttribute` for an experimental global
attribute. -/
def experimentalAttrMsg (attrName propName : String) : String :=
  "Attribute " ++ attrName ++
    " is an experimental attribute that is not standardized or supported by all browsers. Property \"" ++
    propName ++ "\" and attribute \"" ++ attrName ++ "\" are ignored."

/-- Embeds `ComponentElement.prototype.getAttribute` (html-element.ts lines
181-209): zero arguments raise a TypeError; a provided but falsy attribute
name returns null before any further check; the dev-mode block raises a
ReferenceError for an attribute shadowing a declared public property and
logs advisories for erroneous or experimental global attributes; finally
the compiled attribute value is normalized and returned (null when the
attribute is absent). -/
def getAttribute (arg : Option String) (vm : VM) (e : Engine) :
    Except String (Option String × Engine) :=
  match arg with
  | none => Except.error (getAttributeMissingArgMsg vm)
  | some attrName =>
    if attrName = "" then Except.ok (none, e)
    else
      let propName := getPropNameFromAttrName attrName
      if propName ∈ vm.publicProps then
        Except.error (getAttributeShadowMsg attrName propName vm)
      else
        let e' :=
          match List.lookup propName GlobalHTMLProperties with
          | some m =>
            if m.attributeName.isSome then
              match m.error with
              | some err =>
                  { e with consoleErrors := e.consoleErrors ++ [err] }
              | none =>
                if m.experimental then
                  { e with consoleErrors :=
                      e.consoleErrors ++ [experimentalAttrMsg attrName propName] }
                else e
            else e
          | none => e
        Except.ok (toAttributeValue (List.lookup attrName vm.attrs), e')

/-- Guidance text of a disabled global-HTML-attribute accessor
(html-element.ts lines 329-347): the message parts pushed for the error,
experimental, read-only and reflective-attribute cases, joined by
newlines. -/
def disabledGlobalMsg (vm : VM) (propName : String) (m : GlobalPropMeta) :
    String :=
  let intro := ["Accessing the global HTML property \"" ++ propName ++
    "\" in " ++ vmToString vm ++ " is disabled."]
  let rest :=
    match m.error with
    | some err => [err]
    | none =>
        (if m.experimental then
          ["This is an experimental property that is not standardized or supported by all browsers. Property \"" ++
            propName ++ "\" and attribute \"" ++
            (m.attributeName.getD "") ++ "\" are ignored."]
        else []) ++
        (if m.readOnly then ["Property is read-only."] else []) ++
        (match m.attributeName with
         | some a =>
            ["\"Instead access it via the reflective attribute \"" ++ a ++
               "\" with one of these techniques:",
             "  * Use this.getAttribute(\"" ++ a ++
               "\") to access the attribute value. This option is best suited for accessing the value in a getter during the rendering process.",
             "  * Declare static observedAttributes and use attributeChangedCallback(attrName, oldValue, newValue) to get a notification each time the attribute changes. This option is best suited for reactive programming, eg. fetching new data each time the attribute is updated."]
         | none => [])
  String.intercalate "\n" (intro ++ rest)

/-- Embeds the getter installed by the dev-mode loop over
`GlobalHTMLProperties` (html-element.ts lines 318-354) for a property name
not already exposed on `ComponentElement.prototype`: it logs the guidance
message once via console.log and returns explicit undefined; it never
raises a failure. -/
def disabledGlobalGetter (propName : String) (m : GlobalPropMeta) (vm : VM)
    (e : Engine) : Except String (Value × Engine) :=
  Except.ok (Value.undef,
    { e with consoleLog := e.consoleLog ++ [disabledGlobalMsg vm propName m] })

/-! Helper lemmas about the store and watcher primitives. -/

theorem lookupField_setField (f : List (String × Value)) (k : String)
    (v : Value) : lookupField (setField f k v) k = some v := by
  induction f with
  | nil => simp [setField, lookupField]
  | cons hd tl ih =>
      obtain ⟨k', v'⟩ := hd
      by_cases h : k' = k
      · simp [setField, h, lookupField]
      · simp [setField, h, lookupField, ih]

theorem getReactiveProxy_getReactiveProxy (v : Value) :
    getReactiveProxy (getReactiveProxy v) = getReactiveProxy v := by
  cases v <;> rfl

theorem isObservable_getReactiveProxy (v : Value)
    (h : isObservable v = true) :
    isObservable (getReactiveProxy v) = true := by
  cases v <;> simp_all [isObservable, getReactiveProxy]

theorem valueFields_getReactiveProxy (v : Value) :
    valueFields (getReactiveProxy v) = valueFields v := by
  cases v <;> rfl

theorem valueId_getReactiveProxy (v : Value) :
    valueId (getReactiveProxy v) = valueId v := by
  cases v <;> rfl

theorem subscribersOf_append (l1 l2 : List ((Nat × String) × Nat))
    (sid : Nat) (k : String) :
    subscribersOf (l1 ++ l2) sid k
      = subscribersOf l1 sid k ++ subscribersOf l2 sid k := by
  simp [subscribersOf, List.filter_append]

theorem subscribersOf_single (sid : Nat) (k : String) (vmId : Nat) :
    subscribersOf [((sid, k), vmId)] sid k = [vmId] := by
  simp [subscribersOf]

theorem mem_subscribersOf_of_mem {subs : List ((Nat × String) × Nat)}
    {sid : Nat} {k : String} {vmId : Nat}
    (h : ((sid, k), vmId) ∈ subs) : vmId ∈ subscribersOf subs sid k := by
  simp only [subscribersOf, List.mem_map]
  exact ⟨((sid, k), vmId), by simp [List.mem_filter, h], rfl⟩

theorem not_mem_subs_of_subscribersOf_nil {subs : List ((Nat × String) × Nat)}
    {sid : Nat} {k : String}
    (h : subscribersOf subs sid k = []) (vmId : Nat) :
    ((sid, k), vmId) ∉ subs := by
  intro hmem
  have hv := mem_subscribersOf_of_mem hmem
  rw [h] at hv
  exact (List.not_mem_nil vmId) hv

/-! Concrete sample instances used by the witnesses and counterexamples. -/

/-- A node of the host subtree that the composer passed in. -/
def passedNode : DomNode :=
  { nodeId := 1, passedIn := true, matchesSelectors := ["p"], pierced := false }

/-- A node of the host subtree declared by the component's own template. -/
def templateNode : DomNode :=
  { nodeId := 2, passedIn := false, matchesSelectors := ["p"], pierced := false }

/-- A sample idle view-model with one declared public property and one
compiled attribute, whose host subtree holds one passed-in and one
template-declared node. -/
def baseVM : VM :=
  { vmId := 10, sel := "x-foo", constructing := false,
    cmpProps := [], cmpPropsId := 100,
    cmpWired := none, cmpState := none, cmpClasses := none,
    classListObj := none, cmpRoot := none,
    publicProps := ["title"], attrs := [("title", "x")],
    elmNodes := [templateNode, passedNode] }

/-- A sample quiescent engine state (no render in progress, empty watcher
registry and reporting channels). -/
def baseEngine : Engine :=
  { isRendering := false, vmBeingRendered := 0, subs := [], dirty := [],
    scheduled := [], consoleLog := [], consoleErrors := [], errors := [],
    warnings := [], nextId := 1000 }

/-- The stored form of a value written into the public-props store: wrapped
exactly when it is observable. -/
def storedForm (v : Value) : Value :=
  if isObservable v then getReactiveProxy v else v

/-- C1: while the view-model is constructing, a public-property write stores
the value, wrapped when observable, without reporting an error; a read after
construction returns precisely the stored value; and the same write retried
after construction is rejected with a reported error, leaving the stored
value unchanged. -/
theorem C1_public_write_construction_only (vm : VM) (e eIdle eLate : Engine)
    (pn : String) (v w : Value) (hc : vm.constructing = true) :
    lookupField (publicPropertySetter none pn v vm e).1.cmpProps pn
        = some (storedForm v)
    ∧ (publicPropertySetter none pn v vm e).2.errors = e.errors
    ∧ (publicPropertyGetter none pn
         (leaveConstruction (publicPropertySetter none pn v vm e).1) eIdle).1
        = storedForm v
    ∧ publicPropertySetter none pn w
        (leaveConstruction (publicPropertySetter none pn v vm e).1) eLate
        = (leaveConstruction (publicPropertySetter none pn v vm e).1,
           { eLate with errors := eLate.errors ++
               [publicSetterPhaseMsg
                  (leaveConstruction (publicPropertySetter none pn v vm e).1)
                  pn] }) := by
  refine ⟨?_, ?_, ?_, ?_⟩
  · simp [publicPropertySetter, isBeingConstructed, hc, storedForm,
      lookupField_setField]
  · simp [publicPropertySetter, isBeingConstructed, hc]
    split <;> rfl
  · simp [publicPropertySetter, publicPropertyGetter, isBeingConstructed,
      leaveConstruction, hc, storedForm, lookupField_setField]
  · simp [publicPropertySetter, isBeingConstructed, leaveConstruction, hc]

/-- Witness for C1 at a concrete constructing view-model and a primitive
value. -/
theorem C1_public_write_construction_only_witness :
    ({ baseVM with constructing := true } : VM).constructing = true
    ∧ lookupField
        (publicPropertySetter none "foo" (Value.prim 5)
          { baseVM with constructing := true } baseEngine).1.cmpProps "foo"
        = some (storedForm (Value.prim 5)) :=
  ⟨rfl,
   (C1_public_write_construction_only { baseVM with constructing := true }
      baseEngine baseEngine baseEngine "foo" (Value.prim 5) (Value.prim 6)
      rfl).1⟩

/-- C5: assigning an array or a non-observable value to a wired property,
and likewise to `state`, raises a hard failure (`assert.fail`, modelled as
an uncatchable `Except.error`) before any mutation, so the backing store is
left unchanged by the failed write. -/
theorem C5_nonobservable_rejected_hard (pn : String) (v : Value) (vm : VM)
    (e : Engine) (hbad : isArray v = true ∨ isObservable v = false) :
    wiredPropertySetter pn v vm e = Except.error (wiredSetterFailMsg vm pn)
    ∧ stateSetter v vm e = Except.error (stateSetterFailMsg vm v) := by
  rcases hbad with h | h <;>
    simp [wiredPropertySetter, stateSetter, h]

/-- Witness for C5 at an array value and at a primitive value. -/
theorem C5_nonobservable_rejected_hard_witness :
    (isArray (Value.arr 3 false) = true ∨ isObservable (Value.arr 3 false) = false)
    ∧ wiredPropertySetter "data" (Value.arr 3 false) baseVM baseEngine
        = Except.error (wiredSetterFailMsg baseVM "data")
    ∧ (isArray (Value.prim 4) = true ∨ isObservable (Value.prim 4) = false)
    ∧ stateSetter (Value.prim 4) baseVM baseEngine
        = Except.error (stateSetterFailMsg baseVM (Value.prim 4)) :=
  ⟨Or.inl rfl,
   (C5_nonobservable_rejected_hard "data" (Value.arr 3 false) baseVM
      baseEngine (Or.inl rfl)).1,
   Or.inr rfl,
   (C5_nonobservable_rejected_hard "data" (Value.prim 4) baseVM baseEngine
      (Or.inr rfl)).2⟩

/-- C7: reading any declared public property while the view-model is under
construction reports a usage error and returns undefined, for every
author-defined original getter alike, because the construction check runs
before the delegation to the author's getter. -/
theorem C7_public_read_during_construction (origGetter : Option (VM → Value))
    (pn : String) (vm : VM) (e : Engine) (hc : vm.constructing = true) :
    publicPropertyGetter origGetter pn vm e
      = (Value.undef,
         { e with errors := e.errors ++ [publicGetterConstructionMsg vm pn] }) := by
  simp [publicPropertyGetter, isBeingConstructed, hc]

/-- Witness for C7 at a concrete constructing view-model with an
author-defined getter present. -/
theorem C7_public_read_during_construction_witness :
    ({ baseVM with constructing := true } : VM).constructing = true
    ∧ publicPropertyGetter (some (fun _ => Value.prim 9)) "title"
        { baseVM with constructing := true } baseEngine
      = (Value.undef,
         { baseEngine with errors := baseEngine.errors ++
             [publicGetterConstructionMsg
               { baseVM with constructing := true } "title"] }) :=
  ⟨rfl,
   C7_public_read_during_construction (some (fun _ => Value.prim 9)) "title"
     { baseVM with constructing := true } baseEngine rfl⟩

/-- C9: the disabled accessor installed for a global HTML property name that
is not already exposed on the component surface returns explicit undefined,
appends exactly one advisory entry to the console log, leaves every other
channel untouched, and never raises a failure. -/
theorem C9_disabled_global_accessor (pn : String) (m : GlobalPropMeta)
    (vm : VM) (e : Engine) (hx : pn ∉ ComponentElementPrototypeNames) :
    disabledGlobalGetter pn m vm e
      = Except.ok (Value.undef,
          { e with consoleLog := e.consoleLog ++ [disabledGlobalMsg vm pn m] }) :=
  rfl

/-- Witness for C9 at the `dir` entry of the metadata table. -/
theorem C9_disabled_global_accessor_witness :
    "dir" ∉ ComponentElementPrototypeNames
    ∧ disabledGlobalGetter "dir"
        { attributeName := some "dir", readOnly := false,
          experimental := false, error := none } baseVM baseEngine
      = Except.ok (Value.undef,
          { baseEngine with consoleLog := baseEngine.consoleLog ++
              [disabledGlobalMsg baseVM "dir"
                { attributeName := some "dir", readOnly := false,
                  experimental := false, error := none }] }) :=
  ⟨by decide,
   C9_disabled_global_accessor "dir"
     { attributeName := some "dir", readOnly := false,
       experimental := false, error := none } baseVM baseEngine (by decide)⟩

/-- C10: the lazily created per-instance objects are stable singletons — a
second read of `state`, `classList` or `root` on the view-model produced by
the first read returns the identity-same object and changes neither the
view-model nor the engine. -/
theorem C10_lazy_objects_are_singletons (vm : VM) (e : Engine) :
    stateGetter (stateGetter vm e).2.1 (stateGetter vm e).2.2
      = ((stateGetter vm e).1, (stateGetter vm e).2.1, (stateGetter vm e).2.2)
    ∧ classListGetter (classListGetter vm e).2.1 (classListGetter vm e).2.2
      = ((classListGetter vm e).1, (classListGetter vm e).2.1,
         (classListGetter vm e).2.2)
    ∧ rootGetter (rootGetter vm e).2.1 (rootGetter vm e).2.2
      = ((rootGetter vm e).1, (rootGetter vm e).2.1, (rootGetter vm e).2.2) := by
  refine ⟨?_, ?_, ?_⟩
  · cases h : vm.cmpState <;> simp [stateGetter, h]
  · cases h : vm.classListObj <;> simp [classListGetter, h]
  · cases h : vm.cmpRoot <;> simp [rootGetter, h]

/-- C3: outside construction, `querySelectorAll` returns exactly the
passed-in nodes among the native query result, each passed through the
piercing membrane, and `querySelector` returns the first passed-in matching
node pierced, or null when no matching node was passed in. -/
theorem C3_queries_see_only_passed_nodes (vm : VM) (e : Engine)
    (sel : String) (hc : vm.constructing = false) :
    (∃ vm' e', querySelectorAll sel vm e
        = Except.ok
            (((nativeQuerySelectorAll vm sel).filter
                (fun n => wasNodePassedIntoVM vm n)).map (pierce vm),
             vm', e'))
    ∧ (∀ n, (nativeQuerySelectorAll vm sel).find?
          (fun n => wasNodePassedIntoVM vm n) = some n →
        querySelector sel vm e = Except.ok (some (pierce vm n), vm, e))
    ∧ ((nativeQuerySelectorAll vm sel).find?
          (fun n => wasNodePassedIntoVM vm n) = none →
        ∃ vm' e', querySelector sel vm e = Except.ok (none, vm', e')) := by
  refine ⟨?_, ?_, ?_⟩
  · simp only [querySelectorAll, isBeingConstructed, hc, Bool.false_eq_true,
      if_false]
    split
    · next hemp =>
        have hnil : (nativeQuerySelectorAll vm sel).filter
            (fun n => wasNodePassedIntoVM vm n) = [] := by
          simpa [List.isEmpty_iff] using hemp
        rcases hroot : rootGetter vm e with ⟨r, vm2, e2⟩
        rw [hnil]
        exact ⟨vm2, _, rfl⟩
    · exact ⟨vm, e, rfl⟩
  · intro n hfind
    simp only [querySelector, isBeingConstructed, hc, Bool.false_eq_true,
      if_false, hfind]
  · intro hfind
    simp only [querySelector, isBeingConstructed, hc, Bool.false_eq_true,
      if_false, hfind]
    rcases hroot : rootGetter vm e with ⟨r, vm2, e2⟩
    exact ⟨vm2, _, rfl⟩

/-- Witness for C3 at a concrete view-model whose host subtree holds one
template-declared node and one passed-in node, both matching the
selector. -/
theorem C3_queries_see_only_passed_nodes_witness :
    baseVM.constructing = false
    ∧ (∃ vm' e', querySelectorAll "p" baseVM baseEngine
        = Except.ok
            (((nativeQuerySelectorAll baseVM "p").filter
                (fun n => wasNodePassedIntoVM baseVM n)).map (pierce baseVM),
             vm', e'))
    ∧ querySelector "p" baseVM baseEngine
        = Except.ok (some (pierce baseVM passedNode), baseVM, baseEngine) :=
  ⟨rfl,
   (C3_queries_see_only_passed_nodes baseVM baseEngine "p" rfl).1,
   (C3_queries_see_only_passed_nodes baseVM baseEngine "p" rfl).2.1
     passedNode rfl⟩

/-- C6: a public-property read without an author-defined getter, performed
while the global rendering flag is set, first subscribes the currently
rendered context to the (public-props store, property) pair and then returns
the stored value; a later notify on that pair schedules exactly that
context; the same read outside a render returns the stored value and leaves
the engine — in particular the watcher registry — unchanged. -/
theorem C6_public_read_subscribes_while_rendering (vm : VM) (e eIdle : Engine)
    (pn : String)
    (hc : vm.constructing = false)
    (hr : e.isRendering = true)
    (hnosub : subscribersOf e.subs vm.cmpPropsId pn = [])
    (hnd : e.vmBeingRendered ∉ e.dirty)
    (hri : eIdle.isRendering = false) :
    (publicPropertyGetter none pn vm e).1
        = (lookupField vm.cmpProps pn).getD Value.undef
    ∧ (publicPropertyGetter none pn vm e).2.subs
        = e.subs ++ [((vm.cmpPropsId, pn), e.vmBeingRendered)]
    ∧ (notifyListeners vm.cmpPropsId pn
         (publicPropertyGetter none pn vm e).2).scheduled
        = e.scheduled ++ [e.vmBeingRendered]
    ∧ publicPropertyGetter none pn vm eIdle
        = ((lookupField vm.cmpProps pn).getD Value.undef, eIdle) := by
  have hnm : ((vm.cmpPropsId, pn), e.vmBeingRendered) ∉ e.subs :=
    not_mem_subs_of_subscribersOf_nil hnosub _
  refine ⟨?_, ?_, ?_, ?_⟩
  · simp [publicPropertyGetter, isBeingConstructed, hc]
  · simp [publicPropertyGetter, isBeingConstructed, hc, hr,
      subscribeToSetHook, hnm]
  · simp [publicPropertyGetter, isBeingConstructed, hc, hr,
      subscribeToSetHook, hnm, notifyListeners, scheduleRehydration,
      subscribersOf_append, hnosub, subscribersOf_single, hnd]
  · simp [publicPropertyGetter, isBeingConstructed, hc, hri]

/-- A sample engine state in the middle of a render pass of context 42. -/
def renderEngine : Engine :=
  { baseEngine with isRendering := true, vmBeingRendered := 42 }

/-- Witness for C6 at a concrete idle view-model read during a render of
context 42. -/
theorem C6_public_read_subscribes_while_rendering_witness :
    baseVM.constructing = false
    ∧ renderEngine.isRendering = true
    ∧ subscribersOf renderEngine.subs baseVM.cmpPropsId "title" = []
    ∧ renderEngine.vmBeingRendered ∉ renderEngine.dirty
    ∧ baseEngine.isRendering = false
    ∧ (publicPropertyGetter none "title" baseVM renderEngine).2.subs
        = renderEngine.subs ++
            [((baseVM.cmpPropsId, "title"), renderEngine.vmBeingRendered)]
    ∧ (notifyListeners baseVM.cmpPropsId "title"
         (publicPropertyGetter none "title" baseVM renderEngine).2).scheduled
        = renderEngine.scheduled ++ [renderEngine.vmBeingRendered] :=
  ⟨rfl, rfl, rfl, by decide, rfl,
   (C6_public_read_subscribes_while_rendering baseVM renderEngine baseEngine
      "title" rfl rfl rfl (by decide) rfl).2.1,
   (C6_public_read_subscribes_while_rendering baseVM renderEngine baseEngine
      "title" rfl rfl rfl (by decide) rfl).2.2.1⟩

/-- C4: assigning an observable non-array object to a wired property stores
the wrapped object, makes its fields readable back through the wired getter,
and a context previously subscribed to that (store, key) pair is scheduled
exactly once for the write — the explicit `notifyListeners` call on top of
the wrapper's own notification is deduplicated by the dirty flag. -/
theorem C4_wired_write_round_trip (vm : VM) (e : Engine) (pn : String)
    (v : Value) (wid : Nat) (flds : List (String × Value)) (subVm : Nat)
    (hw : vm.cmpWired = some (wid, flds))
    (hobs : isObservable v = true) (harr : isArray v = false)
    (hr : e.isRendering = false)
    (hsub : subscribersOf e.subs wid pn = [subVm])
    (hnd : subVm ∉ e.dirty) :
    ∃ vm1 e1,
      wiredPropertySetter pn v vm e = Except.ok (vm1, e1)
      ∧ vm1.cmpWired = some (wid, setField flds pn (getReactiveProxy v))
      ∧ (wiredPropertyGetter pn vm1 e1).1 = getReactiveProxy v
      ∧ (∀ k, readField (wiredPropertyGetter pn vm1 e1).1 k = readField v k)
      ∧ e1.scheduled = e.scheduled ++ [subVm] := by
  have hN1 : notifyListeners wid pn e
      = { e with dirty := e.dirty ++ [subVm],
                 scheduled := e.scheduled ++ [subVm] } := by
    simp [notifyListeners, scheduleRehydration, hsub, hnd]
  have hN2 : notifyListeners wid pn (notifyListeners wid pn e)
      = notifyListeners wid pn e := by
    rw [hN1]
    simp [notifyListeners, scheduleRehydration, hsub]
  have hget : (wiredPropertyGetter pn
      { vm with cmpWired := some (wid, setField flds pn (getReactiveProxy v)) }
      (notifyListeners wid pn e)).1 = getReactiveProxy v := by
    simp [wiredPropertyGetter, ensureCmpWired, reactiveGet,
      lookupField_setField, isObservable_getReactiveProxy v hobs,
      getReactiveProxy_getReactiveProxy]
  refine ⟨{ vm with cmpWired := some (wid, setField flds pn (getReactiveProxy v)) },
          notifyListeners wid pn e, ?_, rfl, hget, ?_, ?_⟩
  · simp [wiredPropertySetter, harr, hobs, ensureCmpWired, hw, reactiveSet,
      hr, hN2]
  · intro k
    rw [hget]
    simp [readField, valueFields_getReactiveProxy]
  · rw [hN1]

/-- A sample view-model whose wired store (identity 500) already exists and
is empty. -/
def wiredVM : VM :=
  { baseVM with cmpWired := some (500, []) }

/-- A sample engine state in which context 42 is already subscribed to key
"data" of store 500. -/
def wiredEngine : Engine :=
  { baseEngine with subs := [((500, "data"), 42)] }

/-- The observable record assigned to the wired property in the witness
scenario. -/
def dataObj : Value :=
  Value.obj 7 [("a", Value.prim 1)] false false

/-- Witness for C4 at the scenario of the spec: `cmp.data` is set to an
observable record with field a = 1 while context 42 is subscribed to
(store 500, "data"). -/
theorem C4_wired_write_round_trip_witness :
    wiredVM.cmpWired = some (500, [])
    ∧ isObservable dataObj = true
    ∧ isArray dataObj = false
    ∧ wiredEngine.isRendering = false
    ∧ subscribersOf wiredEngine.subs 500 "data" = [42]
    ∧ (42 : Nat) ∉ wiredEngine.dirty
    ∧ readField dataObj "a" = Value.prim 1
    ∧ (∃ vm1 e1,
        wiredPropertySetter "data" dataObj wiredVM wiredEngine
          = Except.ok (vm1, e1)
        ∧ vm1.cmpWired = some (500, setField [] "data" (getReactiveProxy dataObj))
        ∧ (wiredPropertyGetter "data" vm1 e1).1 = getReactiveProxy dataObj
        ∧ (∀ k, readField (wiredPropertyGetter "data" vm1 e1).1 k
              = readField dataObj k)
        ∧ e1.scheduled = wiredEngine.scheduled ++ [42]) :=
  ⟨rfl, rfl, rfl, rfl, rfl, by decide, rfl,
   C4_wired_write_round_trip wiredVM wiredEngine "data" dataObj 500 [] 42
     rfl rfl rfl rfl rfl (by decide)⟩

theorem foldl_scheduleRehydration_errors (l : List Nat) (e : Engine) :
    (l.foldl scheduleRehydration e).errors = e.errors := by
  induction l generalizing e with
  | nil => rfl
  | cons x xs ih =>
      rw [List.foldl_cons, ih]
      by_cases h : x ∈ e.dirty <;> simp [scheduleRehydration, h]

theorem notifyListeners_errors (sid : Nat) (k : String) (e : Engine) :
    (notifyListeners sid k e).errors = e.errors :=
  foldl_scheduleRehydration_errors _ _

/-- A sample engine state with the global rendering flag set and nothing
else going on. -/
def c2Engine : Engine :=
  { baseEngine with isRendering := true }

/-- Counterexample for C2 as stated: with the global rendering flag set, a
wholesale assignment of an observable non-array object to `state` is
applied — the stored value changes from none to the assigned record — and
the engine, in particular its error channel, is left untouched, so the
write is neither rejected nor reported. -/
theorem C2_state_write_during_render_counterexample :
    c2Engine.isRendering = true
    ∧ baseVM.constructing = false
    ∧ baseVM.cmpState = none
    ∧ stateSetter dataObj baseVM c2Engine
        = Except.ok
            ({ baseVM with cmpState := some (7, [("a", Value.prim 1)]) },
             c2Engine) :=
  ⟨rfl, rfl, rfl, rfl⟩

/-- C2 amended: for the public and wired property classes a write attempted
while the global rendering flag is set is rejected and reported as an
error, with the stored value unchanged, and the same write succeeds when
the flag is clear subject to the class's other phase rules; wholesale
assignment to `state`, by contrast, is not rendering-guarded and is applied
without any report even while the flag is set. -/
theorem C2_render_phase_write_guard_amended (vm vmc : VM) (e e2 : Engine)
    (pn : String) (v : Value) (wid : Nat) (flds : List (String × Value))
    (hr : e.isRendering = true) (hc : vm.constructing = false)
    (hw : vm.cmpWired = some (wid, flds))
    (hobs : isObservable v = true) (harr : isArray v = false)
    (hr2 : e2.isRendering = false) (hcc : vmc.constructing = true) :
    publicPropertySetter none pn v vm e
      = (vm, { e with errors := e.errors ++ [publicSetterPhaseMsg vm pn] })
    ∧ (∃ e1, wiredPropertySetter pn v vm e = Except.ok (vm, e1)
        ∧ e1.errors = e.errors ++ [renderPhaseWriteMsg pn])
    ∧ publicPropertySetter none pn v vmc e2
      = ({ vmc with cmpProps := setField vmc.cmpProps pn (getReactiveProxy v) },
         e2)
    ∧ (∃ vm4 e4, wiredPropertySetter pn v vm e2 = Except.ok (vm4, e4)
        ∧ vm4.cmpWired = some (wid, setField flds pn (getReactiveProxy v))
        ∧ e4.errors = e2.errors)
    ∧ stateSetter v vm e
      = Except.ok ({ vm with cmpState := some (valueId v, valueFields v) }, e) := by
  have hvm : ({ vm with cmpWired := some (wid, flds) } : VM) = vm := by
    rw [← hw]
  refine ⟨?_, ?_, ?_, ?_, ?_⟩
  · simp [publicPropertySetter, isBeingConstructed, hc]
  · refine ⟨notifyListeners wid pn
        { e with errors := e.errors ++ [renderPhaseWriteMsg pn] }, ?_, ?_⟩
    · simp [wiredPropertySetter, harr, hobs, ensureCmpWired, hw,
        reactiveSet, hr, hvm]
    · rw [notifyListeners_errors]
  · simp [publicPropertySetter, isBeingConstructed, hcc, hobs]
  · refine ⟨{ vm with cmpWired := some (wid, setField flds pn (getReactiveProxy v)) },
        notifyListeners wid pn (notifyListeners wid pn e2), ?_, rfl, ?_⟩
    · simp [wiredPropertySetter, harr, hobs, ensureCmpWired, hw,
        reactiveSet, hr2]
    · rw [notifyListeners_errors, notifyListeners_errors]
  · simp [stateSetter, harr, hobs, valueId_getReactiveProxy,
      valueFields_getReactiveProxy]

/-- A sample constructing view-model for the flag-clear public write of the
C2 witness. -/
def constructingVM : VM :=
  { baseVM with constructing := true }

/-- Witness for the amended C2 at concrete states: a rendering-phase engine
and an idle one, an idle view-model with an existing wired store and a
constructing one, and an observable record value. -/
theorem C2_render_phase_write_guard_amended_witness :
    c2Engine.isRendering = true
    ∧ wiredVM.constructing = false
    ∧ wiredVM.cmpWired = some (500, [])
    ∧ isObservable dataObj = true
    ∧ isArray dataObj = false
    ∧ baseEngine.isRendering = false
    ∧ constructingVM.constructing = true
    ∧ publicPropertySetter none "data" dataObj wiredVM c2Engine
        = (wiredVM, { c2Engine with errors := c2Engine.errors ++
            [publicSetterPhaseMsg wiredVM "data"] })
    ∧ (∃ e1, wiredPropertySetter "data" dataObj wiredVM c2Engine
          = Except.ok (wiredVM, e1)
        ∧ e1.errors = c2Engine.errors ++ [renderPhaseWriteMsg "data"]) :=
  ⟨rfl, rfl, rfl, rfl, rfl, rfl, rfl,
   (C2_render_phase_write_guard_amended wiredVM constructingVM c2Engine
      baseEngine "data" dataObj 500 [] rfl rfl rfl rfl rfl rfl rfl).1,
   (C2_render_phase_write_guard_amended wiredVM constructingVM c2Engine
      baseEngine "data" dataObj 500 [] rfl rfl rfl rfl rfl rfl rfl).2.1⟩

/-- Counterexample for C8 as stated: for an attribute name that is present
in the compiled attributes but also corresponds to a declared public
property, `getAttribute` does not return the attribute's value — the
dev-mode check raises a ReferenceError instead. -/
theorem C8_shadowed_attribute_counterexample :
    List.lookup "title" baseVM.attrs = some "x"
    ∧ "title" ∈ baseVM.publicProps
    ∧ getAttribute (some "title") baseVM baseEngine
        = Except.error (getAttributeShadowMsg "title" "title" baseVM) := by
  refine ⟨rfl, ?_, rfl⟩
  decide

/-- C8 amended: `getAttribute` with zero arguments raises a hard TypeError;
with a provided but falsy attribute name it returns null without failing;
and with a truthy name whose derived property name is not a declared public
property it returns the normalized compiled attribute value — null when the
attribute is absent.  A truthy name shadowing a declared public property
instead raises a ReferenceError. -/
theorem C8_getAttribute_amended (vm : VM) (e : Engine) (a : String)
    (hne : a ≠ "") (hnp : getPropNameFromAttrName a ∉ vm.publicProps) :
    getAttribute none vm e = Except.error (getAttributeMissingArgMsg vm)
    ∧ getAttribute (some "") vm e = Except.ok (none, e)
    ∧ (∃ e', getAttribute (some a) vm e
        = Except.ok (toAttributeValue (List.lookup a vm.attrs), e'))
    ∧ toAttributeValue none = none := by
  refine ⟨rfl, by simp [getAttribute], ?_, rfl⟩
  simp [getAttribute, hne, hnp]

/-- A sample view-model carrying the compiled attribute dir="rtl". -/
def attrVM : VM :=
  { baseVM with attrs := [("dir", "rtl")] }

/-- Witness for the amended C8 at the attribute name "dir", which does not
shadow the view-model's declared public property. -/
theorem C8_getAttribute_amended_witness :
    ("dir" : String) ≠ ""
    ∧ getPropNameFromAttrName "dir" ∉ attrVM.publicProps
    ∧ getAttribute none attrVM baseEngine
        = Except.error (getAttributeMissingArgMsg attrVM)
    ∧ getAttribute (some "") attrVM baseEngine = Except.ok (none, baseEngine)
    ∧ (∃ e', getAttribute (some "dir") attrVM baseEngine
        = Except.ok (toAttributeValue (List.lookup "dir" attrVM.attrs), e')) :=
  ⟨by decide, by decide,
   (C8_getAttribute_amended attrVM baseEngine "dir" (by decide) (by decide)).1,
   (C8_getAttribute_amended attrVM baseEngine "dir" (by decide) (by decide)).2.1,
   (C8_getAttribute_amended attrVM baseEngine "dir" (by decide) (by decide)).2.2.1⟩
